import Mathlib

/-!
Shallow embedding of `customs.py`, a static analysis tool that flags
function calls executed at module import time, together with proofs of
behavioural properties of its rule-checking engine.

The external syntax-tree provider (`ast.parse`, `ast.get_source_segment`)
is modelled as a parameter; the AST node shapes below are the subset the
tool inspects, each carrying the parser's 1-based `lineno` and 0-based
`col_offset`.
-/

/-- Expression nodes of the host AST (`ast.expr`), as produced by the
external parser: calls, bare names, attribute accesses, and a catch-all
`Constant` for other leaf expressions. -/
inductive Expr : Type where
  | Call (func : Expr) (args : List Expr) (lineno : Nat) (col_offset : Nat)
  | Name (id : String) (lineno : Nat) (col_offset : Nat)
  | Attr (value : Expr) (attr : String) (lineno : Nat) (col_offset : Nat)
  | Constant (lineno : Nat) (col_offset : Nat)

mutual

/-- Structural equality test on expression nodes. -/
def Expr.beq : Expr → Expr → Bool
  | .Call f1 a1 l1 c1, .Call f2 a2 l2 c2 =>
      Expr.beq f1 f2 && Expr.beqList a1 a2 && l1 == l2 && c1 == c2
  | .Name i1 l1 c1, .Name i2 l2 c2 => i1 == i2 && l1 == l2 && c1 == c2
  | .Attr v1 a1 l1 c1, .Attr v2 a2 l2 c2 =>
      Expr.beq v1 v2 && a1 == a2 && l1 == l2 && c1 == c2
  | .Constant l1 c1, .Constant l2 c2 => l1 == l2 && c1 == c2
  | _, _ => false

/-- Structural equality test on lists of expression nodes. -/
def Expr.beqList : List Expr → List Expr → Bool
  | [], [] => true
  | x :: xs, y :: ys => Expr.beq x y && Expr.beqList xs ys
  | _, _ => false

end

mutual

theorem Expr.eq_of_beq : ∀ {a b : Expr}, Expr.beq a b = true → a = b
  | .Call f1 a1 l1 c1, .Call f2 a2 l2 c2, h => by
    simp only [Expr.beq, Bool.and_eq_true, beq_iff_eq] at h
    obtain ⟨⟨⟨h1, h2⟩, h3⟩, h4⟩ := h
    rw [Expr.eq_of_beq h1, Expr.eqList_of_beqList h2, h3, h4]
  | .Name i1 l1 c1, .Name i2 l2 c2, h => by
    simp only [Expr.beq, Bool.and_eq_true, beq_iff_eq] at h
    obtain ⟨⟨h1, h2⟩, h3⟩ := h
    rw [h1, h2, h3]
  | .Attr v1 a1 l1 c1, .Attr v2 a2 l2 c2, h => by
    simp only [Expr.beq, Bool.and_eq_true, beq_iff_eq] at h
    obtain ⟨⟨⟨h1, h2⟩, h3⟩, h4⟩ := h
    rw [Expr.eq_of_beq h1, h2, h3, h4]
  | .Constant l1 c1, .Constant l2 c2, h => by
    simp only [Expr.beq, Bool.and_eq_true, beq_iff_eq] at h
    rw [h.1, h.2]

theorem Expr.eqList_of_beqList : ∀ {a b : List Expr}, Expr.beqList a b = true → a = b
  | [], [], _ => rfl
  | x :: xs, y :: ys, h => by
    simp only [Expr.beqList, Bool.and_eq_true] at h
    rw [Expr.eq_of_beq h.1, Expr.eqList_of_beqList h.2]

end

mutual

theorem Expr.beq_refl : ∀ a : Expr, Expr.beq a a = true
  | .Call f a l c => by
    have hf := Expr.beq_refl f
    have ha := Expr.beqList_refl a
    simp [Expr.beq, hf, ha]
  | .Name i l c => by simp [Expr.beq]
  | .Attr v a l c => by
    have hv := Expr.beq_refl v
    simp [Expr.beq, hv]
  | .Constant l c => by simp [Expr.beq]

theorem Expr.beqList_refl : ∀ a : List Expr, Expr.beqList a a = true
  | [] => rfl
  | x :: xs => by
    simp only [Expr.beqList, Bool.and_eq_true]
    exact ⟨Expr.beq_refl x, Expr.beqList_refl xs⟩

end

instance : DecidableEq Expr := fun a b =>
  if h : Expr.beq a b = true then isTrue (Expr.eq_of_beq h)
  else isFalse (fun he => h (he ▸ Expr.beq_refl a))

/-- Statement nodes of the host AST (`ast.stmt`): expression statements,
assignments, and a catch-all `ImportLike` for statements with no
expression children relevant to the rule (such as `ast.Import`). -/
inductive Stmt : Type where
  | ExprStmt (value : Expr) (lineno : Nat) (col_offset : Nat)
  | Assign (targets : List Expr) (value : Expr) (lineno : Nat) (col_offset : Nat)
  | ImportLike (lineno : Nat) (col_offset : Nat)
deriving DecidableEq

/-- A parsed module (`ast.Module`): the list of top-level statements. -/
structure ModuleNode where
  body : List Stmt
deriving DecidableEq

/-- Either kind of AST node (`ast.AST`), as stored inside a `Violation`:
`visit_Call` records the call expression, `visit_Assign` the assignment
statement. -/
inductive Node : Type where
  | expr (e : Expr)
  | stmt (s : Stmt)
deriving DecidableEq

/-- Line number (1-based, supplied by the parser) of an expression node. -/
def Expr.lineno : Expr → Nat
  | .Call _ _ l _ => l
  | .Name _ l _ => l
  | .Attr _ _ l _ => l
  | .Constant l _ => l

/-- Column offset (0-based, supplied by the parser) of an expression node. -/
def Expr.col_offset : Expr → Nat
  | .Call _ _ _ c => c
  | .Name _ _ c => c
  | .Attr _ _ _ c => c
  | .Constant _ c => c

/-- Line number of a statement node. -/
def Stmt.lineno : Stmt → Nat
  | .ExprStmt _ l _ => l
  | .Assign _ _ l _ => l
  | .ImportLike l _ => l

/-- Column offset of a statement node. -/
def Stmt.col_offset : Stmt → Nat
  | .ExprStmt _ _ c => c
  | .Assign _ _ _ c => c
  | .ImportLike _ c => c

/-- Line number of a node (`node.lineno`). -/
def Node.lineno : Node → Nat
  | .expr e => e.lineno
  | .stmt s => s.lineno

/-- Column offset of a node (`node.col_offset`). -/
def Node.col_offset : Node → Nat
  | .expr e => e.col_offset
  | .stmt s => s.col_offset

/-- Test `isinstance(e, ast.Attribute)` on an expression node. -/
def Expr.isinstance_Attribute : Expr → Bool
  | .Attr _ _ _ _ => true
  | _ => false

/-- Test `isinstance(e, ast.Name)` on an expression node. -/
def Expr.isinstance_Name : Expr → Bool
  | .Name _ _ _ => true
  | _ => false

/-- Test `isinstance(e, ast.Assign)` on an expression node. `ast.Assign`
is a statement class, and the parser only ever places expression nodes in
a call's `func` field, so no expression constructor is an instance of it;
the match is written out exhaustively to record that fact. -/
def Expr.isinstance_Assign : Expr → Bool
  | .Call _ _ _ _ => false
  | .Name _ _ _ => false
  | .Attr _ _ _ _ => false
  | .Constant _ _ => false

/-- Attribute name accessed (`e.attr`); meaningful only on `Attr` nodes,
where the source reads it guarded by an `isinstance` check. -/
def Expr.attr : Expr → String
  | .Attr _ a _ _ => a
  | _ => ""

/-- Identifier of a bare name (`e.id`); meaningful only on `Name` nodes,
where the source reads it guarded by an `isinstance` check. -/
def Expr.id : Expr → String
  | .Name i _ _ => i
  | _ => ""

/-- One rule violation: the offending node plus the user-facing message
(the `Violation` named tuple). -/
structure Violation where
  node : Node
  message : String
deriving DecidableEq

/-- Insert into a set of violations: `self.violations.add(v)` — a no-op
when an equal violation is already present. -/
def addToSet (s : List Violation) (v : Violation) : List Violation :=
  if v ∈ s then s else s ++ [v]

/-- State of the concrete rule `CallImportChecker` (which extends
`Checker`): its issue code, its exception list, and the violations
accumulated so far. -/
structure CallImportChecker where
  issue_code : String
  exceptions : List String
  violations : List Violation
deriving DecidableEq

/-- Constructor `CallImportChecker(issue_code)`: the `Checker` base class
initialises an empty violation set and the subclass hardcodes the
exception list `["getLogger"]`. -/
def CallImportChecker.init (issue_code : String) : CallImportChecker :=
  { issue_code := issue_code, exceptions := ["getLogger"], violations := [] }

/-- Hook `visit_Assign`: check for a call in a top-level variable
assignment; records the assignment statement node itself. -/
def CallImportChecker.visit_Assign (self : CallImportChecker) (node : Stmt) :
    CallImportChecker :=
  match node with
  | Stmt.Assign targets value lineno col_offset =>
    -- not the start of a line
    if 0 ≠ col_offset then self
    else
      match value with
      -- `if not isinstance(node.value, ast.Call): return`
      | Expr.Call func cargs clineno ccol =>
        -- skip anything in a hardcoded list of exceptions
        if func.isinstance_Attribute && self.exceptions.contains func.attr then
          self
        else if func.isinstance_Name && self.exceptions.contains func.id then
          self
        else
          { self with
            violations := addToSet self.violations
              ⟨Node.stmt (Stmt.Assign targets (Expr.Call func cargs clineno ccol)
                lineno col_offset), "Import invoked a Call"⟩ }
      | _ => self
  | _ => self

/-- Hook `visit_Call`: check for a bare call; records the call expression
node itself. The second exception check tests the callee against
`(ast.Name, ast.Assign)`, exactly as the source does. -/
def CallImportChecker.visit_Call (self : CallImportChecker) (node : Expr) :
    CallImportChecker :=
  match node with
  | Expr.Call func args lineno col_offset =>
    -- not the start of a line
    if 0 ≠ col_offset then self
    -- skip anything in a hardcoded list of exceptions
    else if func.isinstance_Attribute && self.exceptions.contains func.attr then
      self
    else if (func.isinstance_Name || func.isinstance_Assign)
        && self.exceptions.contains func.id then
      self
    else
      { self with
        violations := addToSet self.violations
          ⟨Node.expr (Expr.Call func args lineno col_offset),
            "Import invoked a Call"⟩ }
  | _ => self

/-- Dispatch of `ast.NodeVisitor.visit` on an expression node: `Call` has
a hook (which does not recurse into its children); every other kind falls
through to `generic_visit`, which visits each child node. -/
def CallImportChecker.visitExpr (self : CallImportChecker) : Expr → CallImportChecker
  | Expr.Call func args lineno col_offset =>
      self.visit_Call (Expr.Call func args lineno col_offset)
  | Expr.Name _ _ _ => self
  | Expr.Attr value _ _ _ => self.visitExpr value
  | Expr.Constant _ _ => self

/-- Dispatch of `ast.NodeVisitor.visit` on a statement node: `Assign` has
a hook (which does not recurse); expression statements have no hook, so
`generic_visit` recurses into the child expression. -/
def CallImportChecker.visitStmt (self : CallImportChecker) : Stmt → CallImportChecker
  | Stmt.ExprStmt value _ _ => self.visitExpr value
  | Stmt.Assign targets value lineno col_offset =>
      self.visit_Assign (Stmt.Assign targets value lineno col_offset)
  | Stmt.ImportLike _ _ => self

/-- Run `checker.visit(tree)` on a whole module: `Module` has no hook, so
`generic_visit` visits each top-level statement in order. -/
def CallImportChecker.visit (self : CallImportChecker) (tree : ModuleNode) :
    CallImportChecker :=
  tree.body.foldl CallImportChecker.visitStmt self

/-- Error raised by the external parser (`ast.parse`) on syntactically
invalid source text. -/
structure ParseError where
  msg : String
deriving DecidableEq

instance {ε α : Type} [DecidableEq ε] [DecidableEq α] :
    DecidableEq (Except ε α) := fun x y =>
  match x, y with
  | .error a, .error b =>
    if h : a = b then isTrue (by rw [h]) else isFalse (by simp [h])
  | .error _, .ok _ => isFalse (by simp)
  | .ok _, .error _ => isFalse (by simp)
  | .ok a, .ok b =>
    if h : a = b then isTrue (by rw [h]) else isFalse (by simp [h])

/-- State of the `Linter`: the set of registered checkers. The driver
registers exactly one checker, so a list model is exact; `print` output is
returned rather than written. -/
structure Linter where
  checkers : List CallImportChecker
deriving DecidableEq

/-- Split a character list at every newline, keeping empty pieces — the
splitting discipline of the host language's `code.split("\n")`. -/
def splitNl : List Char → List (List Char)
  | [] => [[]]
  | c :: rest =>
    if c = '\n' then [] :: splitNl rest
    else
      match splitNl rest with
      | h :: t => (c :: h) :: t
      | [] => [[c]]

/-- Evaluate `code.split("\n")` on the string's character data. -/
def pySplitNl (code : String) : List String :=
  (splitNl code.data).map String.mk

/-- Evaluate the membership test `"\n" in code`. -/
def containsNl (code : String) : Bool :=
  code.data.contains '\n'

/-- Append the code snippet after the standard message
(`Linter.format_code`). Mirrors the source: empty snippet returns the
message; a single-line snippet is appended after the barrier; a
multi-line snippet interleaves each non-empty line with a newline and the
left pad, the loop skipping empty lines. -/
def Linter.format_code (message : String) (code : String) : String :=
  if code = "" then message
  else
    let barrier := " | "
    let left_pad := String.mk (List.replicate message.length ' ') ++ barrier
    if ¬ containsNl code then message ++ barrier ++ code
    else
      let interleave :=
        (pySplitNl code).foldl
          (fun acc line =>
            if line = "" then acc else acc ++ [line ++ "\n", left_pad])
          [message ++ barrier]
      String.join interleave

/-- Print all violations collected by a checker
(`Linter.print_violations`): one formatted line per violation, the
snippet obtained from the external `ast.get_source_segment` when verbose;
afterwards the checker's violation set is cleared for a fresh slate with
the next file. Returns the printed lines and the cleared checker. -/
def Linter.print_violations (get_source_segment : String → Node → String)
    (checker : CallImportChecker) (file_name : String) (source_code : String)
    (verbose : Bool) : List String × CallImportChecker :=
  (checker.violations.map (fun v =>
      let code := if verbose then get_source_segment source_code v.node else ""
      let message := file_name ++ ":" ++ toString v.node.lineno ++ ":" ++
        toString v.node.col_offset ++ ": " ++ checker.issue_code ++ ": " ++
        v.message
      Linter.format_code message code),
    { checker with violations := [] })

/-- Run all lints on a source file (`Linter.run`): parse via the external
parser — a parse error propagates, there is no handler — then for each
checker visit the tree and print its violations. Returns the printed
lines and the updated linter. -/
def Linter.run (parse : String → Except ParseError ModuleNode)
    (get_source_segment : String → Node → String) (self : Linter)
    (file_name : String) (source_code : String) (verbose : Bool) :
    Except ParseError (List String × Linter) :=
  match parse source_code with
  | Except.error e => Except.error e
  | Except.ok tree =>
    let result := self.checkers.foldl
      (fun (acc : List String × List CallImportChecker) checker =>
        let visited := checker.visit tree
        let printed := Linter.print_violations get_source_segment visited
          file_name source_code verbose
        (acc.1 ++ printed.1, acc.2 ++ [printed.2]))
      ([], [])
    Except.ok (result.1, { checkers := result.2 })

/-- Linter as constructed by the driver `lint`: a fresh `Linter` holding
the single checker `CallImportChecker(issue_code="W001")`. -/
def linterInit : Linter :=
  { checkers := [CallImportChecker.init "W001"] }

/-- One candidate path handed to the driver: the path string, whether
`Path(path).is_file()` holds, `os.path.basename(path)`, and the text read
from the file (meaningful only when `is_file`). -/
structure SourceFile where
  path : String
  is_file : Bool
  basename : String
  content : String

/-- Loop body of the driver `lint`: skip paths that are not existing
regular files (noting the skip on the error stream when verbose),
otherwise run the linter and count the file. A parse error escapes the
loop. Accumulates (linted_files, linter, stdout lines, stderr lines). -/
def lintLoop (parse : String → Except ParseError ModuleNode)
    (get_source_segment : String → Node → String) (verbose : Bool) :
    List SourceFile → Nat → Linter → List String → List String →
    Except ParseError (Nat × List String × List String)
  | [], n, _, out, err => Except.ok (n, out, err)
  | f :: rest, n, linter, out, err =>
    if ¬ f.is_file then
      lintLoop parse get_source_segment verbose rest n linter out
        (if verbose then err ++ ["ignoring file: " ++ f.path] else err)
    else
      match linter.run parse get_source_segment f.basename f.content verbose with
      | Except.error e => Except.error e
      | Except.ok (lines, linter2) =>
        lintLoop parse get_source_segment verbose rest (n + 1) linter2
          (out ++ lines) err

/-- Driver `lint(files, verbose)`: create a linter with the single W001
checker, process each file, then print the summary to the error stream.
Returns (stdout lines, stderr lines); an uncaught parse error aborts the
run before the summary. -/
def lint (parse : String → Except ParseError ModuleNode)
    (get_source_segment : String → Node → String) (files : List SourceFile)
    (verbose : Bool) : Except ParseError (List String × List String) :=
  match lintLoop parse get_source_segment verbose files 0 linterInit [] [] with
  | Except.error e => Except.error e
  | Except.ok (n, out, err) =>
    Except.ok (out, err ++ ["Analyzed " ++ toString n ++ " files\n"])

/-- Spec-side predicate: the callee of a call is exempted by the
exception list — an attribute access whose accessed name is listed, or a
bare name that is listed. -/
def calleeExempt (func : Expr) (exceptions : List String) : Bool :=
  (func.isinstance_Attribute && exceptions.contains func.attr) ||
  (func.isinstance_Name && exceptions.contains func.id)

/-- Spec-side invariant on a recorded violation: it is either a bare call
at column 0 with a non-exempt callee, or an assignment at column 0 whose
right-hand side is a call with a non-exempt callee. -/
def violationOk (exceptions : List String) (v : Violation) : Prop :=
  match v.node with
  | Node.expr (Expr.Call func _ _ c) =>
      c = 0 ∧ calleeExempt func exceptions = false
  | Node.stmt (Stmt.Assign _ (Expr.Call func _ _ _) _ c) =>
      c = 0 ∧ calleeExempt func exceptions = false
  | _ => False

theorem mem_addToSet_self (s : List Violation) (v : Violation) : v ∈ addToSet s v := by
  unfold addToSet
  split
  · assumption
  · exact List.mem_append_right _ (by simp)

theorem mem_addToSet_of_mem (s : List Violation) (v w : Violation) (h : w ∈ s) :
    w ∈ addToSet s v := by
  unfold addToSet
  split
  · exact h
  · exact List.mem_append_left _ h

theorem mem_addToSet (s : List Violation) (v w : Violation) :
    w ∈ addToSet s v ↔ w ∈ s ∨ w = v := by
  by_cases hv : v ∈ s
  · simp only [addToSet, if_pos hv]
    constructor
    · exact fun h => Or.inl h
    · rintro (h | rfl)
      · exact h
      · exact hv
  · simp [addToSet, if_neg hv]

theorem nodup_addToSet (s : List Violation) (v : Violation) (h : s.Nodup) :
    (addToSet s v).Nodup := by
  by_cases hv : v ∈ s
  · simpa [addToSet, if_pos hv] using h
  · simp [addToSet, if_neg hv, List.nodup_append, h, hv]

/-- Evolution invariant of one checker across any traversal step: the
issue code and exception list are untouched, previously recorded
violations persist, any new violation satisfies `violationOk`, and
distinctness of the violation set is preserved. -/
def Evolves (c c2 : CallImportChecker) : Prop :=
  c2.issue_code = c.issue_code ∧
  c2.exceptions = c.exceptions ∧
  (∀ w ∈ c.violations, w ∈ c2.violations) ∧
  (∀ w ∈ c2.violations, w ∈ c.violations ∨ violationOk c.exceptions w) ∧
  (c.violations.Nodup → c2.violations.Nodup)

theorem evolves_refl (c : CallImportChecker) : Evolves c c :=
  ⟨rfl, rfl, fun _ h => h, fun _ h => Or.inl h, fun h => h⟩

theorem evolves_trans {a b c : CallImportChecker}
    (h1 : Evolves a b) (h2 : Evolves b c) : Evolves a c := by
  obtain ⟨i1, e1, m1, n1, d1⟩ := h1
  obtain ⟨i2, e2, m2, n2, d2⟩ := h2
  refine ⟨i2.trans i1, e2.trans e1, fun w h => m2 w (m1 w h), ?_, fun h => d2 (d1 h)⟩
  intro w h
  rcases n2 w h with h3 | hok
  · exact n1 w h3
  · rw [e1] at hok
    exact Or.inr hok

theorem Expr.isinstance_Assign_eq_false (e : Expr) : e.isinstance_Assign = false := by
  cases e <;> rfl

/-- Characterisation of the `Call` hook: it records the call node exactly
when the call sits at column 0 and its callee is not exempted. -/
theorem CallImportChecker.visit_Call_spec (self : CallImportChecker)
    (func : Expr) (args : List Expr) (l c : Nat) :
    self.visit_Call (Expr.Call func args l c) =
      if c = 0 ∧ calleeExempt func self.exceptions = false then
        { self with
          violations := addToSet self.violations
            (Violation.mk (Node.expr (Expr.Call func args l c))
              "Import invoked a Call") }
      else self := by
  have hAs := Expr.isinstance_Assign_eq_false func
  by_cases hc : c = 0
  · subst hc
    cases hA : func.isinstance_Attribute <;>
      cases hN : func.isinstance_Name <;>
        by_cases hAt : func.attr ∈ self.exceptions <;>
          by_cases hI : func.id ∈ self.exceptions <;>
            simp [CallImportChecker.visit_Call, calleeExempt, hAs, hA, hN, hAt, hI]
  · have hc2 : (0 : Nat) ≠ c := fun h => hc h.symm
    simp [CallImportChecker.visit_Call, hc, hc2]

/-- Characterisation of the `Assign` hook on an assignment whose value is
a call: it records the assignment node exactly when the assignment sits
at column 0 and the call's callee is not exempted. -/
theorem CallImportChecker.visit_Assign_spec (self : CallImportChecker)
    (targets : List Expr) (func : Expr) (cargs : List Expr) (cl cc l c : Nat) :
    self.visit_Assign (Stmt.Assign targets (Expr.Call func cargs cl cc) l c) =
      if c = 0 ∧ calleeExempt func self.exceptions = false then
        { self with
          violations := addToSet self.violations
            (Violation.mk (Node.stmt (Stmt.Assign targets
              (Expr.Call func cargs cl cc) l c)) "Import invoked a Call") }
      else self := by
  by_cases hc : c = 0
  · subst hc
    cases hA : func.isinstance_Attribute <;>
      cases hN : func.isinstance_Name <;>
        by_cases hAt : func.attr ∈ self.exceptions <;>
          by_cases hI : func.id ∈ self.exceptions <;>
            simp [CallImportChecker.visit_Assign, calleeExempt, hA, hN, hAt, hI]
  · have hc2 : (0 : Nat) ≠ c := fun h => hc h.symm
    simp [CallImportChecker.visit_Assign, hc, hc2]

theorem evolves_addToSet (c : CallImportChecker) (v : Violation)
    (hok : violationOk c.exceptions v) :
    Evolves c { c with violations := addToSet c.violations v } := by
  refine ⟨rfl, rfl, fun w h => mem_addToSet_of_mem _ _ _ h, ?_,
    fun h => nodup_addToSet _ _ h⟩
  intro w h
  rcases (mem_addToSet _ _ _).mp h with h2 | rfl
  · exact Or.inl h2
  · exact Or.inr hok

theorem evolves_visit_Call (self : CallImportChecker) (e : Expr) :
    Evolves self (self.visit_Call e) := by
  cases e with
  | Call func args l c =>
    rw [CallImportChecker.visit_Call_spec]
    by_cases h : c = 0 ∧ calleeExempt func self.exceptions = false
    · rw [if_pos h]
      exact evolves_addToSet self
        (Violation.mk (Node.expr (Expr.Call func args l c)) "Import invoked a Call")
        ⟨h.1, h.2⟩
    · rw [if_neg h]
      exact evolves_refl self
  | Name i l c => exact evolves_refl self
  | Attr v a l c => exact evolves_refl self
  | Constant l c => exact evolves_refl self

theorem evolves_visit_Assign (self : CallImportChecker) (s : Stmt) :
    Evolves self (self.visit_Assign s) := by
  cases s with
  | Assign targets value l c =>
    cases value with
    | Call func cargs cl cc =>
      rw [CallImportChecker.visit_Assign_spec]
      by_cases h : c = 0 ∧ calleeExempt func self.exceptions = false
      · rw [if_pos h]
        exact evolves_addToSet self
          (Violation.mk (Node.stmt (Stmt.Assign targets
            (Expr.Call func cargs cl cc) l c)) "Import invoked a Call")
          ⟨h.1, h.2⟩
      · rw [if_neg h]
        exact evolves_refl self
    | Name i il ic =>
      simp only [CallImportChecker.visit_Assign, ite_self]
      exact evolves_refl self
    | Attr v a al ac =>
      simp only [CallImportChecker.visit_Assign, ite_self]
      exact evolves_refl self
    | Constant cl cc =>
      simp only [CallImportChecker.visit_Assign, ite_self]
      exact evolves_refl self
  | ExprStmt value l c => exact evolves_refl self
  | ImportLike l c => exact evolves_refl self

theorem evolves_visitExpr : ∀ (self : CallImportChecker) (e : Expr),
    Evolves self (self.visitExpr e)
  | self, .Call f a l c => evolves_visit_Call self (.Call f a l c)
  | self, .Name _ _ _ => evolves_refl self
  | self, .Attr v _ _ _ => evolves_visitExpr self v
  | self, .Constant _ _ => evolves_refl self

theorem evolves_visitStmt (self : CallImportChecker) (s : Stmt) :
    Evolves self (self.visitStmt s) := by
  cases s with
  | ExprStmt value l c => exact evolves_visitExpr self value
  | Assign targets value l c =>
    exact evolves_visit_Assign self (Stmt.Assign targets value l c)
  | ImportLike l c => exact evolves_refl self

theorem evolves_foldl (l : List Stmt) (self : CallImportChecker) :
    Evolves self (List.foldl CallImportChecker.visitStmt self l) := by
  induction l generalizing self with
  | nil => exact evolves_refl self
  | cons s t ih =>
    rw [List.foldl_cons]
    exact evolves_trans (evolves_visitStmt self s) (ih (self.visitStmt s))

theorem evolves_visit (self : CallImportChecker) (m : ModuleNode) :
    Evolves self (self.visit m) :=
  evolves_foldl m.body self

theorem mem_visit_foldl (t : List Stmt) (c : CallImportChecker) (s : Stmt)
    (hs : s ∈ t) (v : Violation)
    (h : ∀ c2 : CallImportChecker, c2.exceptions = c.exceptions →
      v ∈ (c2.visitStmt s).violations) :
    v ∈ (List.foldl CallImportChecker.visitStmt c t).violations := by
  induction t generalizing c with
  | nil => cases hs
  | cons a t2 ih =>
    rw [List.foldl_cons]
    rcases List.mem_cons.mp hs with rfl | hmem
    · exact (evolves_foldl t2 (c.visitStmt s)).2.2.1 v (h c rfl)
    · refine ih (c.visitStmt a) hmem (fun c2 hc2 => h c2 ?_)
      rw [hc2, (evolves_visitStmt c a).2.1]

theorem mem_visit_of_mem_body (m : ModuleNode) (c : CallImportChecker) (s : Stmt)
    (hs : s ∈ m.body) (v : Violation)
    (h : ∀ c2 : CallImportChecker, c2.exceptions = c.exceptions →
      v ∈ (c2.visitStmt s).violations) :
    v ∈ (c.visit m).violations :=
  mem_visit_foldl m.body c s hs v h

theorem count_one_of_visit_mem (m : ModuleNode) (issue : String) (v : Violation)
    (h : v ∈ ((CallImportChecker.init issue).visit m).violations) :
    ((CallImportChecker.init issue).visit m).violations.count v = 1 := by
  have hd : ((CallImportChecker.init issue).visit m).violations.Nodup :=
    (evolves_visit _ m).2.2.2.2 (by simp [CallImportChecker.init])
  exact List.count_eq_one_of_mem hd h

theorem violation_of_visit (m : ModuleNode) (c : CallImportChecker) (v : Violation)
    (hv : v ∈ (c.visit m).violations) :
    v ∈ c.violations ∨ violationOk c.exceptions v :=
  (evolves_visit c m).2.2.2.1 v hv

theorem format_code_empty (message : String) :
    Linter.format_code message "" = message := by
  simp [Linter.format_code]

/-- Running the engine as configured by the driver on a successfully
parsed module: the single W001 checker is visited and its violations are
printed and cleared. -/
theorem run_linterInit (parse : String → Except ParseError ModuleNode)
    (gss : String → Node → String) (file src : String) (verbose : Bool)
    (m : ModuleNode) (hp : parse src = Except.ok m) :
    Linter.run parse gss linterInit file src verbose =
      Except.ok
        ((Linter.print_violations gss ((CallImportChecker.init "W001").visit m)
            file src verbose).1,
          { checkers := [(Linter.print_violations gss
              ((CallImportChecker.init "W001").visit m) file src verbose).2] }) := by
  simp [Linter.run, hp, linterInit]

theorem print_line_mem (gss : String → Node → String) (ch : CallImportChecker)
    (file src : String) (v : Violation) (hv : v ∈ ch.violations) :
    Linter.format_code
        (file ++ ":" ++ toString v.node.lineno ++ ":" ++ toString v.node.col_offset ++
          ": " ++ ch.issue_code ++ ": " ++ v.message) "" ∈
      (Linter.print_violations gss ch file src false).1 := by
  simp only [Linter.print_violations]
  refine List.mem_map.mpr ⟨v, hv, ?_⟩
  simp

theorem w001_message_eq (file : String) (l : Nat) :
    file ++ ":" ++ toString l ++ ":" ++ toString (0 : Nat) ++ ": " ++ "W001" ++
      ": " ++ "Import invoked a Call" =
    file ++ ":" ++ toString l ++ ":0: W001: Import invoked a Call" := by
  simp only [String.append_assoc]
  rfl

/-- Parsed module of the spec scenario `import re\nre.search("")\n`. -/
def testModuleC1 : ModuleNode :=
  ⟨[Stmt.ImportLike 1 0,
    Stmt.ExprStmt (Expr.Call (Expr.Attr (Expr.Name "re" 2 0) "search" 2 0)
      [Expr.Constant 2 10] 2 0) 2 0]⟩

/-- C1: for every parsed source file in which a call expression appears as
a bare top-level statement (column offset 0) whose callee name is not in
the exception list, running the engine on that file records exactly one
W001 violation for that statement, and the reported line carries the
statement's exact 1-based line and 0-based column. -/
theorem claim_C1
    (parse : String → Except ParseError ModuleNode)
    (gss : String → Node → String) (m : ModuleNode)
    (func : Expr) (args : List Expr) (l : Nat) (file_name source_code : String)
    (hparse : parse source_code = Except.ok m)
    (hmem : Stmt.ExprStmt (Expr.Call func args l 0) l 0 ∈ m.body)
    (hexc : calleeExempt func ["getLogger"] = false) :
    ((CallImportChecker.init "W001").visit m).violations.count
        (Violation.mk (Node.expr (Expr.Call func args l 0)) "Import invoked a Call")
      = 1 ∧
    ∃ out linter2,
      Linter.run parse gss linterInit file_name source_code false =
        Except.ok (out, linter2) ∧
      file_name ++ ":" ++ toString l ++ ":0: W001: Import invoked a Call" ∈ out := by
  have hvm : (Violation.mk (Node.expr (Expr.Call func args l 0)) "Import invoked a Call")
      ∈ ((CallImportChecker.init "W001").visit m).violations := by
    apply mem_visit_of_mem_body m _ _ hmem
    intro c2 hc2
    show _ ∈ (c2.visit_Call (Expr.Call func args l 0)).violations
    rw [CallImportChecker.visit_Call_spec]
    rw [if_pos ⟨rfl, by rw [hc2]; exact hexc⟩]
    exact mem_addToSet_self _ _
  refine ⟨count_one_of_visit_mem m "W001" _ hvm, ?_⟩
  refine ⟨_, _, run_linterInit parse gss file_name source_code false m hparse, ?_⟩
  have hline := print_line_mem gss ((CallImportChecker.init "W001").visit m)
    file_name source_code _ hvm
  have hic : ((CallImportChecker.init "W001").visit m).issue_code = "W001" :=
    (evolves_visit _ m).1
  rw [hic] at hline
  simp only [Node.lineno, Node.col_offset, Expr.lineno, Expr.col_offset] at hline
  rw [format_code_empty, w001_message_eq] at hline
  exact hline

/-- Witness for C1: the spec scenario `import re\nre.search("")\n` under
file name test.py yields the line `test.py:2:0: W001`. -/
theorem claim_C1_witness :
    ((CallImportChecker.init "W001").visit testModuleC1).violations.count
        (Violation.mk (Node.expr (Expr.Call (Expr.Attr (Expr.Name "re" 2 0) "search" 2 0)
          [Expr.Constant 2 10] 2 0)) "Import invoked a Call") = 1 ∧
    ∃ out linter2,
      Linter.run (fun _ => Except.ok testModuleC1) (fun _ _ => "") linterInit
          "test.py" "import re\nre.search(\"\")\n" false =
        Except.ok (out, linter2) ∧
      "test.py" ++ ":" ++ toString 2 ++ ":0: W001: Import invoked a Call" ∈ out :=
  claim_C1 (fun _ => Except.ok testModuleC1) (fun _ _ => "") testModuleC1
    (Expr.Attr (Expr.Name "re" 2 0) "search" 2 0) [Expr.Constant 2 10] 2
    "test.py" "import re\nre.search(\"\")\n" rfl (by decide) (by decide)

/-- Parsed module of the spec scenario `import re\na = re.search("")\n`:
the nested call sits at column 4, the assignment at column 0. -/
def testModuleC2 : ModuleNode :=
  ⟨[Stmt.ImportLike 1 0,
    Stmt.Assign [Expr.Name "a" 2 0]
      (Expr.Call (Expr.Attr (Expr.Name "re" 2 4) "search" 2 4)
        [Expr.Constant 2 14] 2 4) 2 0]⟩

/-- C2: for every parsed source file in which a top-level (column 0)
assignment's right-hand side is a call whose callee is not in the
exception list, the engine records exactly one violation, and the
reported line carries the assignment statement's 1-based line and 0-based
column — not the nested call's position, which is arbitrary here. -/
theorem claim_C2
    (parse : String → Except ParseError ModuleNode)
    (gss : String → Node → String) (m : ModuleNode)
    (targets : List Expr) (func : Expr) (cargs : List Expr) (cl cc l : Nat)
    (file_name source_code : String)
    (hparse : parse source_code = Except.ok m)
    (hmem : Stmt.Assign targets (Expr.Call func cargs cl cc) l 0 ∈ m.body)
    (hexc : calleeExempt func ["getLogger"] = false) :
    ((CallImportChecker.init "W001").visit m).violations.count
        (Violation.mk (Node.stmt (Stmt.Assign targets (Expr.Call func cargs cl cc) l 0))
          "Import invoked a Call") = 1 ∧
    ∃ out linter2,
      Linter.run parse gss linterInit file_name source_code false =
        Except.ok (out, linter2) ∧
      file_name ++ ":" ++ toString l ++ ":0: W001: Import invoked a Call" ∈ out := by
  have hvm : (Violation.mk (Node.stmt (Stmt.Assign targets (Expr.Call func cargs cl cc) l 0))
      "Import invoked a Call")
      ∈ ((CallImportChecker.init "W001").visit m).violations := by
    apply mem_visit_of_mem_body m _ _ hmem
    intro c2 hc2
    show _ ∈ (c2.visit_Assign (Stmt.Assign targets (Expr.Call func cargs cl cc) l 0)).violations
    rw [CallImportChecker.visit_Assign_spec]
    rw [if_pos ⟨rfl, by rw [hc2]; exact hexc⟩]
    exact mem_addToSet_self _ _
  refine ⟨count_one_of_visit_mem m "W001" _ hvm, ?_⟩
  refine ⟨_, _, run_linterInit parse gss file_name source_code false m hparse, ?_⟩
  have hline := print_line_mem gss ((CallImportChecker.init "W001").visit m)
    file_name source_code _ hvm
  have hic : ((CallImportChecker.init "W001").visit m).issue_code = "W001" :=
    (evolves_visit _ m).1
  rw [hic] at hline
  simp only [Node.lineno, Node.col_offset, Stmt.lineno, Stmt.col_offset] at hline
  rw [format_code_empty, w001_message_eq] at hline
  exact hline

/-- Witness for C2: the spec scenario `import re\na = re.search("")\n`
yields the line `test.py:2:0: W001` at the assignment's position even
though the nested call sits at column 4. -/
theorem claim_C2_witness :
    ((CallImportChecker.init "W001").visit testModuleC2).violations.count
        (Violation.mk (Node.stmt (Stmt.Assign [Expr.Name "a" 2 0]
          (Expr.Call (Expr.Attr (Expr.Name "re" 2 4) "search" 2 4)
            [Expr.Constant 2 14] 2 4) 2 0)) "Import invoked a Call") = 1 ∧
    ∃ out linter2,
      Linter.run (fun _ => Except.ok testModuleC2) (fun _ _ => "") linterInit
          "test.py" "import re\na = re.search(\"\")\n" false =
        Except.ok (out, linter2) ∧
      "test.py" ++ ":" ++ toString 2 ++ ":0: W001: Import invoked a Call" ∈ out :=
  claim_C2 (fun _ => Except.ok testModuleC2) (fun _ _ => "") testModuleC2
    [Expr.Name "a" 2 0] (Expr.Attr (Expr.Name "re" 2 4) "search" 2 4)
    [Expr.Constant 2 14] 2 4 2 "test.py" "import re\na = re.search(\"\")\n"
    rfl (by decide) (by decide)

/-- Parsed module of the spec's all-exempt scenario: a bare `getLogger()`
call, an assignment `log = getLogger()`, and `logging.getLogger()`. -/
def testModuleC3 : ModuleNode :=
  ⟨[Stmt.ExprStmt (Expr.Call (Expr.Name "getLogger" 1 0) [] 1 0) 1 0,
    Stmt.Assign [Expr.Name "log" 2 0]
      (Expr.Call (Expr.Name "getLogger" 2 6) [] 2 6) 2 0,
    Stmt.ExprStmt (Expr.Call (Expr.Attr (Expr.Name "logging" 3 0) "getLogger" 3 0)
      [] 3 0) 3 0]⟩

/-- C3: the default exception list is exactly `["getLogger"]`, and for
every top-level call statement and every top-level assignment whose
right-hand side is a call, if the callee name (bare identifier or
accessed attribute name) is in the exception list then the engine records
no violation for that statement. -/
theorem claim_C3 :
    (∀ issue_code : String,
      (CallImportChecker.init issue_code).exceptions = ["getLogger"]) ∧
    (∀ (m : ModuleNode) (func : Expr) (args : List Expr) (cl cc : Nat),
      calleeExempt func ["getLogger"] = true →
      ∀ v ∈ ((CallImportChecker.init "W001").visit m).violations,
        v.node ≠ Node.expr (Expr.Call func args cl cc)) ∧
    (∀ (m : ModuleNode) (targets : List Expr) (func : Expr) (cargs : List Expr)
      (ccl ccc sl sc : Nat),
      calleeExempt func ["getLogger"] = true →
      ∀ v ∈ ((CallImportChecker.init "W001").visit m).violations,
        v.node ≠ Node.stmt (Stmt.Assign targets (Expr.Call func cargs ccl ccc) sl sc)) := by
  refine ⟨fun _ => rfl, ?_, ?_⟩
  · intro m func args cl cc hex v hv heq
    rcases violation_of_visit m _ v hv with hin | hok
    · simp [CallImportChecker.init] at hin
    · simp [violationOk, heq, CallImportChecker.init, hex] at hok
  · intro m targets func cargs ccl ccc sl sc hex v hv heq
    rcases violation_of_visit m _ v hv with hin | hok
    · simp [CallImportChecker.init] at hin
    · simp [violationOk, heq, CallImportChecker.init, hex] at hok

/-- Witness for C3: on the all-exempt module no violation is recorded for
the bare `getLogger()` statement nor for the `log = getLogger()`
assignment, and the default exception list is `["getLogger"]`. -/
theorem claim_C3_witness :
    (CallImportChecker.init "W001").exceptions = ["getLogger"] ∧
    (Violation.mk (Node.expr (Expr.Call (Expr.Name "getLogger" 1 0) [] 1 0))
        "Import invoked a Call")
      ∉ ((CallImportChecker.init "W001").visit testModuleC3).violations ∧
    (Violation.mk (Node.stmt (Stmt.Assign [Expr.Name "log" 2 0]
        (Expr.Call (Expr.Name "getLogger" 2 6) [] 2 6) 2 0)) "Import invoked a Call")
      ∉ ((CallImportChecker.init "W001").visit testModuleC3).violations :=
  ⟨claim_C3.1 "W001",
   fun hmem => claim_C3.2.1 testModuleC3 (Expr.Name "getLogger" 1 0) [] 1 0 (by decide)
     _ hmem rfl,
   fun hmem => claim_C3.2.2 testModuleC3 [Expr.Name "log" 2 0]
     (Expr.Name "getLogger" 2 6) [] 2 6 2 0 (by decide) _ hmem rfl⟩

/-- C4: after the engine finishes running on a file, the registered rule's
violation set is empty, and consequently running the engine on a second
file from the post-run state prints exactly what a fresh engine would —
no violation of the first file leaks into the second file's report. -/
theorem claim_C4
    (parse : String → Except ParseError ModuleNode)
    (gss : String → Node → String)
    (fileA srcA fileB srcB : String) (verbose : Bool)
    (outA : List String) (linter1 : Linter)
    (hA : Linter.run parse gss linterInit fileA srcA verbose =
      Except.ok (outA, linter1)) :
    (∀ ch ∈ linter1.checkers, ch.violations = []) ∧
    Linter.run parse gss linter1 fileB srcB verbose =
      Linter.run parse gss linterInit fileB srcB verbose := by
  cases hp : parse srcA with
  | error e => simp [Linter.run, hp] at hA
  | ok m =>
    rw [run_linterInit parse gss fileA srcA verbose m hp] at hA
    have h1 : ((CallImportChecker.init "W001").visit m).issue_code = "W001" :=
      (evolves_visit _ m).1
    have h2 : ((CallImportChecker.init "W001").visit m).exceptions = ["getLogger"] :=
      (evolves_visit _ m).2.1
    simp only [CallImportChecker.init] at h1 h2
    have hcl : ({ checkers := [(Linter.print_violations gss
        ((CallImportChecker.init "W001").visit m) fileA srcA verbose).2] } : Linter)
        = linterInit := by
      simp [Linter.print_violations, linterInit, CallImportChecker.init, h1, h2]
    rw [hcl] at hA
    simp only [Except.ok.injEq, Prod.mk.injEq] at hA
    obtain ⟨-, hl⟩ := hA
    subst hl
    refine ⟨?_, rfl⟩
    intro ch hch
    simp [linterInit] at hch
    subst hch
    rfl

/-- Witness for C4: running the engine on the scenario file leaves the
checker's violation set empty, and a subsequent run behaves like a fresh
engine. -/
theorem claim_C4_witness :
    (CallImportChecker.init "W001").violations = [] ∧
    Linter.run (fun _ => Except.ok testModuleC1) (fun _ _ => "") linterInit
        "b.py" "s" false =
      Linter.run (fun _ => Except.ok testModuleC1) (fun _ _ => "") linterInit
        "b.py" "s" false := by
  have h := claim_C4 (fun _ => Except.ok testModuleC1) (fun _ _ => "") "a.py"
    "import re\nre.search(\"\")\n" "b.py" "s" false
    ["a.py:2:0: W001: Import invoked a Call"] linterInit (by decide)
  exact ⟨h.1 (CallImportChecker.init "W001") (by decide), h.2⟩

/-- C8: a parse error raised by the external parser propagates out of
`Linter.run` unchanged — there is no handler — aborting the run; on a
successfully parsed source, `Linter.run` completes without raising. -/
theorem claim_C8
    (parse : String → Except ParseError ModuleNode)
    (gss : String → Node → String) (l : Linter) (file src : String) (vb : Bool) :
    (∀ e : ParseError, parse src = Except.error e →
      Linter.run parse gss l file src vb = Except.error e) ∧
    (∀ m : ModuleNode, parse src = Except.ok m →
      (Linter.run parse gss l file src vb).isOk = true) := by
  constructor
  · intro e he
    simp [Linter.run, he]
  · intro m hm
    simp [Linter.run, hm, Except.isOk, Except.toBool]

/-- Witness for C8: a failing parse surfaces its error from `Linter.run`;
a successful parse completes the run. -/
theorem claim_C8_witness :
    Linter.run (fun _ => Except.error (ParseError.mk "invalid syntax"))
        (fun _ _ => "") linterInit "bad.py" "x ==" false =
      Except.error (ParseError.mk "invalid syntax") ∧
    (Linter.run (fun _ => Except.ok (ModuleNode.mk [])) (fun _ _ => "")
        linterInit "ok.py" "x = 1" false).isOk = true :=
  ⟨(claim_C8 (fun _ => Except.error (ParseError.mk "invalid syntax")) (fun _ _ => "")
      linterInit "bad.py" "x ==" false).1 (ParseError.mk "invalid syntax") rfl,
   (claim_C8 (fun _ => Except.ok (ModuleNode.mk [])) (fun _ _ => "")
      linterInit "ok.py" "x = 1" false).2 (ModuleNode.mk []) rfl⟩

/-- Standard-output component of a finished driver run. -/
def stdoutOf (r : Except ParseError (List String × List String)) : List String :=
  match r with
  | Except.ok (out, _) => out
  | Except.error _ => []

/-- Error-stream component of a finished driver run. -/
def stderrOf (r : Except ParseError (List String × List String)) : List String :=
  match r with
  | Except.ok (_, err) => err
  | Except.error _ => []

theorem lintLoop_skipped (parse : String → Except ParseError ModuleNode)
    (gss : String → Node → String) (vb : Bool) :
    ∀ (fs : List SourceFile) (n : Nat) (linter : Linter) (out err : List String),
      (∀ f ∈ fs, f.is_file = false) →
      ∃ err2, lintLoop parse gss vb fs n linter out err = Except.ok (n, out, err2) := by
  intro fs
  induction fs with
  | nil =>
    intro n linter out err _
    exact ⟨err, rfl⟩
  | cons f rest ih =>
    intro n linter out err h
    have hf : f.is_file = false := h f (List.mem_cons_self f rest)
    obtain ⟨err2, he⟩ := ih n linter out
      (if vb then err ++ ["ignoring file: " ++ f.path] else err)
      (fun g hg => h g (List.mem_cons_of_mem f hg))
    refine ⟨err2, ?_⟩
    simp only [lintLoop, hf]
    simpa using he

/-- C10: when the driver is handed an empty file list, or every supplied
path is skipped because it is not an existing regular file, `lint`
terminates normally, prints nothing to standard output, and prints the
summary `Analyzed 0 files` to the error stream. -/
theorem claim_C10
    (parse : String → Except ParseError ModuleNode)
    (gss : String → Node → String) (files : List SourceFile) (verbose : Bool)
    (h : ∀ f ∈ files, f.is_file = false) :
    (lint parse gss files verbose).isOk = true ∧
    stdoutOf (lint parse gss files verbose) = [] ∧
    "Analyzed 0 files\n" ∈ stderrOf (lint parse gss files verbose) := by
  obtain ⟨err2, he⟩ := lintLoop_skipped parse gss verbose files 0 linterInit [] [] h
  have hs : ("Analyzed " ++ toString (0 : Nat) ++ " files\n") = "Analyzed 0 files\n" :=
    rfl
  have hl : lint parse gss files verbose =
      Except.ok ([], err2 ++ ["Analyzed 0 files\n"]) := by
    simp only [lint, he, hs]
  rw [hl]
  refine ⟨rfl, rfl, ?_⟩
  show "Analyzed 0 files\n" ∈ err2 ++ ["Analyzed 0 files\n"]
  exact List.mem_append_right _ (by simp)

/-- Witness for C10: a singleton list holding one non-existing path, in
verbose mode: the driver succeeds, stdout is empty and the summary
reaches the error stream. -/
theorem claim_C10_witness :
    (lint (fun _ => Except.error (ParseError.mk "")) (fun _ _ => "")
        [SourceFile.mk "missing.py" false "missing.py" ""] true).isOk = true ∧
    stdoutOf (lint (fun _ => Except.error (ParseError.mk "")) (fun _ _ => "")
        [SourceFile.mk "missing.py" false "missing.py" ""] true) = [] ∧
    "Analyzed 0 files\n" ∈ stderrOf (lint (fun _ => Except.error (ParseError.mk ""))
        (fun _ _ => "") [SourceFile.mk "missing.py" false "missing.py" ""] true) :=
  claim_C10 (fun _ => Except.error (ParseError.mk "")) (fun _ _ => "")
    [SourceFile.mk "missing.py" false "missing.py" ""] true (by decide)

theorem strFoldl_append (l : List String) :
    ∀ a : String, l.foldl (· ++ ·) a = a ++ l.foldl (· ++ ·) "" := by
  induction l with
  | nil =>
    intro a
    simp [String.append_empty]
  | cons b t ih =>
    intro a
    simp only [List.foldl_cons]
    rw [ih (a ++ b), ih ("" ++ b), String.empty_append, String.append_assoc]

theorem strJoin_cons (a : String) (l : List String) :
    String.join (a :: l) = a ++ String.join l := by
  simp only [String.join, List.foldl_cons]
  rw [strFoldl_append l ("" ++ a), String.empty_append]

/-- Left pad of the verbose gutter: as many spaces as the message is long,
then the barrier. -/
def leftPad (message : String) : String :=
  String.mk (List.replicate message.length ' ') ++ " | "

theorem gutter_foldl (lp : String) (lines : List String) :
    ∀ acc : List String,
      lines.foldl (fun a line => if line = "" then a else a ++ [line ++ "\n", lp])
          acc =
        acc ++ (lines.filter (fun line => ¬ line = "")).flatMap
          (fun line => [line ++ "\n", lp]) := by
  induction lines with
  | nil =>
    intro acc
    simp
  | cons b t ih =>
    intro acc
    by_cases hb : b = ""
    · simp [hb, ih]
    · simp [hb, ih, List.append_assoc]

theorem join_gutter (lp : String) (ls : List String) :
    String.join (ls.flatMap (fun line => [line ++ "\n", lp])) =
    String.join (ls.map (fun line => line ++ "\n" ++ lp)) := by
  induction ls with
  | nil => rfl
  | cons b t ih =>
    have h1 : (b :: t).flatMap (fun line => [line ++ "\n", lp]) =
        (b ++ "\n") :: lp :: t.flatMap (fun line => [line ++ "\n", lp]) := by
      simp
    rw [h1, strJoin_cons, strJoin_cons, ih, List.map_cons, strJoin_cons]
    simp [String.append_assoc]

theorem format_code_multiline (message code : String) (hc : ¬ code = "")
    (hn : containsNl code = true) :
    Linter.format_code message code =
      String.join ([message ++ " | "] ++
        ((pySplitNl code).filter (fun line => ¬ line = "")).map
          (fun line => line ++ "\n" ++ leftPad message)) := by
  simp only [Linter.format_code, if_neg hc, hn, not_true, if_false]
  rw [gutter_foldl]
  rw [List.singleton_append, strJoin_cons]
  rw [join_gutter]
  rw [List.singleton_append, strJoin_cons]
  simp only [leftPad]

/-- Rendering the claim's words dictate for a multi-line snippet: every
physical line of the snippet — empty lines included — is followed by a
newline and the left-pad-aligned gutter. -/
def renderSnippetClaim (message code : String) : String :=
  String.join ([message ++ " | "] ++
    (pySplitNl code).map (fun line => line ++ "\n" ++ leftPad message))

/-- C5 counterexample: at message `m` and snippet `a\n\nb`, whose middle
physical line is empty, the rendering produced by `format_code` is not
the claimed every-physical-line rendering — the loop drops empty lines. -/
theorem claim_C5_counterexample :
    Linter.format_code "m" "a\n\nb" ≠ renderSnippetClaim "m" "a\n\nb" := by
  decide

/-- One printed line per the code's actual discipline (the amended C5):
the standard message, then — when verbose and the snippet is non-empty —
either the inline snippet after the barrier, or, for a multi-line
snippet, each NON-EMPTY physical line followed by a newline and the
left-pad gutter. -/
def render_line (gss : String → Node → String) (file src issue : String)
    (verbose : Bool) (v : Violation) : String :=
  let message := file ++ ":" ++ toString v.node.lineno ++ ":" ++
    toString v.node.col_offset ++ ": " ++ issue ++ ": " ++ v.message
  let code := if verbose then gss src v.node else ""
  if code = "" then message
  else if ¬ containsNl code then message ++ " | " ++ code
  else String.join ([message ++ " | "] ++
    ((pySplitNl code).filter (fun line => ¬ line = "")).map
      (fun line => line ++ "\n" ++ leftPad message))

/-- C5 (amended): every violation is printed as
`file_name:lineno:col_offset: issue_code: message`, the positions exactly
those the parser stored on the node (1-based line, 0-based column); when
verbose a single-line snippet is appended inline after the barrier, and a
multi-line snippet is rendered with each non-empty physical line followed
by a newline and a left-pad-aligned gutter whose width matches the
message prefix — empty physical lines are dropped. -/
theorem claim_C5 (gss : String → Node → String) (ch : CallImportChecker)
    (file src : String) (verbose : Bool) :
    (Linter.print_violations gss ch file src verbose).1 =
      ch.violations.map (render_line gss file src ch.issue_code verbose) := by
  simp only [Linter.print_violations]
  have hf : ∀ v : Violation,
      Linter.format_code
        (file ++ ":" ++ toString v.node.lineno ++ ":" ++
          toString v.node.col_offset ++ ": " ++ ch.issue_code ++ ": " ++ v.message)
        (if verbose then gss src v.node else "") =
      render_line gss file src ch.issue_code verbose v := by
    intro v
    cases verbose with
    | false => simp [render_line, format_code_empty]
    | true =>
      by_cases hc : gss src v.node = ""
      · simp [render_line, hc, format_code_empty]
      · by_cases hn : containsNl (gss src v.node)
        · have hred : (if (true : Bool) then gss src v.node else "") =
              gss src v.node := rfl
          rw [hred, format_code_multiline _ _ hc hn]
          simp [render_line, hc, hn]
        · simp [render_line, Linter.format_code, hc, hn]
  simp only [hf]

/-- Parsed module of `f(\ng())`: the inner call `g()` sits at column 0 of
its own physical line, nested in the outer call's argument list. -/
def testModuleC6 : ModuleNode :=
  ⟨[Stmt.ExprStmt (Expr.Call (Expr.Name "f" 1 0)
      [Expr.Call (Expr.Name "g" 2 0) [] 2 0] 1 0) 1 0]⟩

/-- C6 counterexample: in `f(\ng())` the nested call `g()` sits at column
0 with a non-exempt callee — it would be recorded if visited — yet after
the traversal no violation for it exists: the `Call` hook does not
recurse into the outer call's children, so a violating call nested inside
another call is not found. -/
theorem claim_C6_counterexample :
    calleeExempt (Expr.Name "g" 2 0) ["getLogger"] = false ∧
    (Expr.Call (Expr.Name "g" 2 0) [] 2 0).col_offset = 0 ∧
    (Violation.mk (Node.expr (Expr.Call (Expr.Name "g" 2 0) [] 2 0))
        "Import invoked a Call")
      ∉ ((CallImportChecker.init "W001").visit testModuleC6).violations := by
  decide

/-- Parsed module of `f().x`: a violating call nested beneath two hookless
node kinds (an expression statement and an attribute access). -/
def testModuleC6b : ModuleNode :=
  ⟨[Stmt.ExprStmt (Expr.Attr (Expr.Call (Expr.Name "f" 1 0) [] 1 0) "x" 1 4) 1 0]⟩

theorem addToSet_length_le (s : List Violation) (v : Violation) :
    (addToSet s v).length ≤ s.length + 1 := by
  unfold addToSet
  split
  · exact Nat.le_succ _
  · simp

/-- C6 (amended): for node kinds with no visit hook the traversal recurses
generically into children, so a violating call nested beneath hookless
constructs (here an expression statement wrapping an attribute access) is
found and recorded; the hooks themselves however do not recurse, so one
`visit_Call` adds at most one violation no matter how many nested calls
its children contain. -/
theorem claim_C6
    (m : ModuleNode) (func : Expr) (args : List Expr) (l : Nat)
    (a : String) (al ac sl sc : Nat)
    (hmem : Stmt.ExprStmt (Expr.Attr (Expr.Call func args l 0) a al ac) sl sc
      ∈ m.body)
    (hexc : calleeExempt func ["getLogger"] = false) :
    (Violation.mk (Node.expr (Expr.Call func args l 0)) "Import invoked a Call")
      ∈ ((CallImportChecker.init "W001").visit m).violations ∧
    ∀ (self : CallImportChecker) (e : Expr),
      (self.visit_Call e).violations.length ≤ self.violations.length + 1 := by
  constructor
  · apply mem_visit_of_mem_body m _ _ hmem
    intro c2 hc2
    show _ ∈ (c2.visit_Call (Expr.Call func args l 0)).violations
    rw [CallImportChecker.visit_Call_spec]
    rw [if_pos ⟨rfl, by rw [hc2]; exact hexc⟩]
    exact mem_addToSet_self _ _
  · intro self e
    cases e with
    | Call f2 a2 l2 c2 =>
      rw [CallImportChecker.visit_Call_spec]
      split
      · exact addToSet_length_le _ _
      · exact Nat.le_succ _
    | Name _ _ _ => exact Nat.le_succ _
    | Attr _ _ _ _ => exact Nat.le_succ _
    | Constant _ _ => exact Nat.le_succ _

/-- Witness for C6: in `f().x` the call `f()` is found through the two
hookless nodes above it, and a hook invocation on a call with a nested
call argument grows the violation list by at most one. -/
theorem claim_C6_witness :
    (Violation.mk (Node.expr (Expr.Call (Expr.Name "f" 1 0) [] 1 0))
        "Import invoked a Call")
      ∈ ((CallImportChecker.init "W001").visit testModuleC6b).violations ∧
    ((CallImportChecker.init "W001").visit_Call
        (Expr.Call (Expr.Name "f" 1 0)
          [Expr.Call (Expr.Name "g" 2 0) [] 2 0] 1 0)).violations.length
      ≤ (CallImportChecker.init "W001").violations.length + 1 := by
  have h := claim_C6 testModuleC6b (Expr.Name "f" 1 0) [] 1 "x" 1 4 1 0
    (by decide) (by decide)
  exact ⟨h.1, h.2 (CallImportChecker.init "W001") _⟩

/-- Variant of the `Call` hook whose bare-name type check accepts only
`ast.Name`, the form the spec says an implementer should write. -/
def visit_Call_nameOnly (self : CallImportChecker) (node : Expr) :
    CallImportChecker :=
  match node with
  | Expr.Call func args lineno col_offset =>
    if 0 ≠ col_offset then self
    else if func.isinstance_Attribute && self.exceptions.contains func.attr then
      self
    else if func.isinstance_Name && self.exceptions.contains func.id then
      self
    else
      { self with
        violations := addToSet self.violations
          ⟨Node.expr (Expr.Call func args lineno col_offset),
            "Import invoked a Call"⟩ }
  | _ => self

/-- C9: the `ast.Assign` alternative in the `Call` hook's bare-name type
check is dead code — on every expression node the hook behaves exactly
like the variant testing `ast.Name` alone, because an assignment node
never appears as a call expression's callee. -/
theorem claim_C9 (self : CallImportChecker) (node : Expr) :
    self.visit_Call node = visit_Call_nameOnly self node := by
  cases node with
  | Call func args l c =>
    have hAs := Expr.isinstance_Assign_eq_false func
    simp [CallImportChecker.visit_Call, visit_Call_nameOnly, hAs]
  | Name _ _ _ => rfl
  | Attr _ _ _ _ => rfl
  | Constant _ _ => rfl
